import Mathlib

/-
Verification of the asynapplicationinsights telemetry pipeline.

Shallow embedding of the repository source:
  - channel/abstractions.py  : TelemetryChannel (queue, put, should_flush, flush)
  - aiohttp.py               : default_is_success_request, application_insights_middleware
  - entities.py              : RequestData.format_duration, ExceptionDetails.from_exception,
                               Operation / Session / User / LoggingDevice / Application tags
  - telemetry.py             : AsyncTelemetryClient.get_tags, track_request, dispose
-/

namespace AsyncAppInsights

/-! ### Channel model (channel/abstractions.py)

The channel holds an asyncio FIFO queue of envelopes.  Envelope objects are
always truthy in Python, and `get` returns `None` exactly when the queue is
empty, so the drain loop of `flush` collects the whole queue in FIFO order.
The `sent` field records, oldest first, each batch passed to the abstract
`send` transport method. -/

structure ChannelState (α : Type) where
  queue : List α
  maxLength : Nat
  sent : List (List α)
deriving Repr, DecidableEq

/-- Fresh channel as built by `TelemetryChannel.__init__`: empty queue and
`_max_length` a given threshold (the source initialises it to 500). -/
def initChannel (α : Type) (threshold : Nat) : ChannelState α :=
  { queue := [], maxLength := threshold, sent := [] }

/-- The drain loop of `flush`: repeatedly `get` an item, stop at `None`
(empty queue; envelopes themselves are truthy objects), collecting items in
FIFO order. -/
def drainLoop {α : Type} : List α → List α
  | [] => []
  | x :: rest => x :: drainLoop rest

/-- `TelemetryChannel.flush`: drain every queued envelope, then call
`send(data)` on the drained batch.  The source calls `send`
unconditionally, with no emptiness check on `data`. -/
def ChannelState.flush {α : Type} (c : ChannelState α) : ChannelState α :=
  { c with queue := [], sent := c.sent ++ [drainLoop c.queue] }

/-- `TelemetryChannel.should_flush`: `self._max_length <= self._queue.qsize()`. -/
def ChannelState.shouldFlush {α : Type} (c : ChannelState α) : Bool :=
  c.maxLength ≤ c.queue.length

/-- `TelemetryChannel.put`: ignore falsy items (`None`), otherwise append to
the queue tail and flush when `should_flush` fires. -/
def ChannelState.put {α : Type} (c : ChannelState α) (item : Option α) : ChannelState α :=
  match item with
  | Option.none => c
  | Option.some x =>
    let c1 : ChannelState α := { c with queue := c.queue ++ [x] }
    if c1.shouldFlush then c1.flush else c1

/-- Push a sequence of (non-null) envelopes one by one through `put`. -/
def putAll {α : Type} (c : ChannelState α) (xs : List α) : ChannelState α :=
  xs.foldl (fun acc x => acc.put (Option.some x)) c

theorem drainLoop_eq {α : Type} (l : List α) : drainLoop l = l := by
  induction l with
  | nil => rfl
  | cons x rest ih => simp [drainLoop, ih]

theorem flush_eq {α : Type} (c : ChannelState α) :
    c.flush = { c with queue := [], sent := c.sent ++ [c.queue] } := by
  simp [ChannelState.flush, drainLoop_eq]

/-- Invariant of the put loop: starting from a queue strictly shorter than the
threshold `T`, pushing `xs` produces some list `B` of flushed batches, each of
length exactly `T`, whose concatenation followed by the final queue is the
initial queue followed by `xs`; the number of batches and the final queue
length are determined by division and remainder by `T`. -/
theorem putAll_spec {α : Type} (T : Nat) (hT : 1 ≤ T) :
    ∀ (xs q : List α) (s : List (List α)), q.length < T →
    ∃ (B : List (List α)) (qf : List α),
      putAll ⟨q, T, s⟩ xs = ⟨qf, T, s ++ B⟩ ∧
      (∀ b ∈ B, b.length = T) ∧
      B.flatten ++ qf = q ++ xs ∧
      qf.length < T ∧
      B.length = (q.length + xs.length) / T ∧
      qf.length = (q.length + xs.length) % T := by
  intro xs
  induction xs with
  | nil =>
    intro q s hq
    refine ⟨[], q, ?_, ?_, ?_, hq, ?_, ?_⟩ <;>
      simp [putAll, Nat.div_eq_of_lt hq, Nat.mod_eq_of_lt hq]
  | cons x xs ih =>
    intro q s hq
    have hstep : putAll ⟨q, T, s⟩ (x :: xs)
        = putAll ((ChannelState.mk q T s).put (Option.some x)) xs := by
      simp [putAll]
    by_cases hfull : T ≤ q.length + 1
    · -- the queue reaches exactly T elements and is flushed whole
      have hqT : q.length + 1 = T := Nat.le_antisymm hq hfull
      have hput : (ChannelState.mk q T s).put (Option.some x)
          = ⟨[], T, s ++ [q ++ [x]]⟩ := by
        simp [ChannelState.put, ChannelState.shouldFlush, flush_eq, hfull]
      obtain ⟨B', qf, hrun, hlen, hjoin, hrem, hcount, hmod⟩ :=
        ih [] (s ++ [q ++ [x]]) (by simpa using hT)
      refine ⟨(q ++ [x]) :: B', qf, ?_, ?_, ?_, hrem, ?_, ?_⟩
      · rw [hstep, hput, hrun]
        simp
      · intro b hb
        rcases List.mem_cons.mp hb with hb | hb
        · simp [hb]; omega
        · exact hlen b hb
      · simp only [List.flatten_cons, List.append_assoc]
        simp only [List.nil_append] at hjoin
        rw [hjoin]
        simp
      · have h4 : q.length + (x :: xs).length = xs.length + T := by
          simp; omega
        rw [h4, Nat.add_div_right _ (by omega)]
        simp only [List.length_nil, Nat.zero_add] at hcount
        simp [hcount]
      · have h4 : q.length + (x :: xs).length = xs.length + T := by
          simp; omega
        rw [h4, Nat.add_mod_right]
        simpa using hmod
    · -- the queue stays below the threshold; no flush happens
      have hput : (ChannelState.mk q T s).put (Option.some x)
          = ⟨q ++ [x], T, s⟩ := by
        simp [ChannelState.put, ChannelState.shouldFlush, hfull]
      obtain ⟨B', qf, hrun, hlen, hjoin, hrem, hcount, hmod⟩ :=
        ih (q ++ [x]) s (by simp; omega)
      have harr : (q ++ [x]) ++ xs = q ++ x :: xs := by simp
      have hnum : (q ++ [x]).length + xs.length = q.length + (x :: xs).length := by
        simp; omega
      refine ⟨B', qf, ?_, hlen, ?_, hrem, ?_, ?_⟩
      · rw [hstep, hput, hrun]
      · rw [← harr]; exact hjoin
      · rw [← hnum]; exact hcount
      · rw [← hnum]; exact hmod

/-- C1 (amended): pushing N non-null envelopes into a channel with flush
threshold T ≥ 1 and then performing a final flush invokes the transport send
exactly N / T + 1 times (the final flush always performs one send, with an
empty batch when T divides N); every batch holds at most T envelopes and the
concatenation of all sent batches is the original push sequence in FIFO
order. -/
theorem c1_flush_cardinality {α : Type} (T : Nat) (hT : 1 ≤ T) (xs : List α) :
    ((putAll (initChannel α T) xs).flush).sent.length = xs.length / T + 1 ∧
    (∀ b ∈ ((putAll (initChannel α T) xs).flush).sent, b.length ≤ T) ∧
    ((putAll (initChannel α T) xs).flush).sent.flatten = xs := by
  obtain ⟨B, qf, hrun, hlen, hjoin, hrem, hcount, hmod⟩ :=
    putAll_spec T hT xs [] [] (by simpa using hT)
  have hinit : initChannel α T = ⟨[], T, []⟩ := rfl
  rw [hinit, hrun, flush_eq]
  simp only [List.nil_append] at hjoin hcount ⊢
  refine ⟨?_, ?_, ?_⟩
  · simp [hcount]
  · intro b hb
    simp only [List.mem_append, List.mem_singleton] at hb
    rcases hb with hb | hb
    · exact (hlen b hb).le
    · rw [hb]; exact hrem.le
  · simp [hjoin]

/-- Witness for C1 (amended) at T = 2 and three pushed envelopes: two sends
in total, each batch within the threshold, concatenating back to the input. -/
theorem c1_flush_cardinality_witness :
    ((putAll (initChannel Nat 2) [10, 20, 30]).flush).sent.length = 2 ∧
    (∀ b ∈ ((putAll (initChannel Nat 2) [10, 20, 30]).flush).sent, b.length ≤ 2) ∧
    ((putAll (initChannel Nat 2) [10, 20, 30]).flush).sent.flatten = [10, 20, 30] := by
  have h := c1_flush_cardinality 2 (by omega) [10, 20, 30]
  simpa using h

/-- Counterexample to C1 as stated: with threshold T = 1 and a single pushed
envelope, the put already flushes the full batch and the final flush still
invokes send with an empty batch, so send is invoked 2 times, not
⌈1 / 1⌉ = 1 times. -/
theorem c1_counterexample :
    ((putAll (initChannel Nat 1) [7]).flush).sent = [[7], []] ∧
    ((putAll (initChannel Nat 1) [7]).flush).sent.length ≠ (1 + 1 - 1) / 1 := by
  refine ⟨rfl, by decide⟩

/-- C3 (amended): `flush` always invokes the transport send exactly once,
with the entire drained queue content as the batch; in particular a flush of
an empty queue still invokes send, with an empty batch, rather than being a
no-op. -/
theorem c3_flush_always_sends {α : Type} (c : ChannelState α) :
    c.flush.sent = c.sent ++ [c.queue] ∧ c.flush.queue = [] := by
  rw [flush_eq]
  exact ⟨rfl, rfl⟩

/-- Counterexample to C3 as stated: flushing a fresh channel (empty queue,
default threshold 500) invokes the transport send once, with the empty
batch, instead of not invoking it at all. -/
theorem c3_counterexample :
    ((initChannel Nat 500).queue = [] ∧
      ((initChannel Nat 500).flush).sent = [[]]) := by
  exact ⟨rfl, rfl⟩

/-! ### Default success classifier (aiohttp.py) -/

/-- The set `client_errors_request_handling_success = {401, 403, 404, 405}`
from aiohttp.py: client errors that the server nevertheless handled
correctly. -/
def client_errors_request_handling_success : List Int := [401, 403, 404, 405]

/-- `default_is_success_request` from aiohttp.py: status below 400 is a
success, the listed client errors also count as success, everything else is
a failure. -/
def default_is_success_request (status : Int) : Bool :=
  if status < 400 then true
  else if status ∈ client_errors_request_handling_success then true
  else false

/-- C4: for every integer HTTP status, the default success classifier returns
true exactly when the status is below 400 or is one of 401, 403, 404, 405;
in particular 200, 399 and 404 classify as success while 400 and 500 do
not. -/
theorem c4_default_success_classifier :
    (∀ status : Int, default_is_success_request status = true ↔
      (status < 400 ∨ status = 401 ∨ status = 403 ∨ status = 404 ∨ status = 405)) ∧
    default_is_success_request 200 = true ∧
    default_is_success_request 399 = true ∧
    default_is_success_request 404 = true ∧
    default_is_success_request 400 = false ∧
    default_is_success_request 500 = false := by
  refine ⟨?_, by decide, by decide, by decide, by decide, by decide⟩
  intro status
  simp only [default_is_success_request, client_errors_request_handling_success,
    List.mem_cons, List.not_mem_nil, or_false]
  split
  · simp_all
  · split
    · simp_all
    · simp_all

/-- Witness for C4: the classifier applied through the iff at status 200. -/
theorem c4_default_success_classifier_witness :
    default_is_success_request 200 = true :=
  (c4_default_success_classifier.1 200).mpr (Or.inl (by decide))

/-! ### Duration formatting (entities.py, RequestData.format_duration) -/

/-- Zero left padding to a given width: the behaviour of the %02d and %03d
conversions in the format string of `format_duration` for non-negative
values. -/
def leftPadZeros (width : Nat) (s : String) : String :=
  String.mk (List.replicate (width - s.length) '0') ++ s

def pad2 (n : Nat) : String := leftPadZeros 2 (Nat.repr n)

def pad3 (n : Nat) : String := leftPadZeros 3 (Nat.repr n)

/-- `RequestData.format_duration` from entities.py.  The source first turns a
falsy argument into 0 (a no-op for integer input), raises ValueError on
negative values, then repeatedly divides by 1000, 60, 60, 24 collecting the
remainders, reverses the collected parts, renders them with the format
string %02d:%02d:%02d.%03d, and prepends the remaining day count and a dot
when that count is nonzero. -/
def format_duration (duration : Int) : Except String String :=
  if duration < 0 then Except.error "request duration cannot be negative"
  else
    let n := duration.toNat
    let res := [1000, 60, 60, 24].foldl
      (fun (st : Nat × List Nat) (m : Nat) => (st.1 / m, st.2 ++ [st.1 % m])) (n, [])
    match res.2.reverse with
    | [h, mi, s, ms] =>
      let core := pad2 h ++ ":" ++ pad2 mi ++ ":" ++ pad2 s ++ "." ++ pad3 ms
      Except.ok (if res.1 ≠ 0 then Nat.repr res.1 ++ "." ++ core else core)
    | _ => Except.error "unreachable format arity"

/-- Spec-side rendering of the below-one-day part of a duration: zero-padded
hh:mm:ss.fff computed directly from the millisecond count. -/
def hhmmssFff (n : Nat) : String :=
  pad2 (n / 3600000 % 24) ++ ":" ++ pad2 (n / 60000 % 60) ++ ":" ++
    pad2 (n / 1000 % 60) ++ "." ++ pad3 (n % 1000)

theorem format_duration_nonneg (d : Int) (hd : 0 ≤ d) :
    format_duration d = Except.ok
      (if d.toNat / 86400000 ≠ 0
        then Nat.repr (d.toNat / 86400000) ++ "." ++ hhmmssFff d.toNat
        else hhmmssFff d.toNat) := by
  have hneg : ¬ d < 0 := by omega
  have h1 : d.toNat / 1000 / 60 = d.toNat / 60000 := by
    rw [Nat.div_div_eq_div_mul]
  have h2 : d.toNat / 60000 / 60 = d.toNat / 3600000 := by
    rw [Nat.div_div_eq_div_mul]
  have h3 : d.toNat / 3600000 / 24 = d.toNat / 86400000 := by
    rw [Nat.div_div_eq_div_mul]
  simp only [format_duration, hneg, if_false, List.foldl_cons, List.foldl_nil,
    List.nil_append, List.cons_append, List.reverse_cons, List.reverse_nil,
    List.append_assoc, List.singleton_append]
  rw [h1, h2, h3]
  simp [hhmmssFff]

/-- C5 (amended): for a negative number of milliseconds `format_duration`
raises; for non-negative d it renders zero-padded hh:mm:ss.fff, with the
leading "<days>." prefix exactly when d is at least 24 hours (86400000 ms);
format_duration 16150 = "00:00:16.150" and format_duration 255 =
"00:00:00.255". -/
theorem c5_duration_formatting (d : Int) :
    (d < 0 → format_duration d = Except.error "request duration cannot be negative") ∧
    (0 ≤ d → d < 86400000 → format_duration d = Except.ok (hhmmssFff d.toNat)) ∧
    (86400000 ≤ d →
      format_duration d
        = Except.ok (Nat.repr (d.toNat / 86400000) ++ "." ++ hhmmssFff d.toNat)) ∧
    format_duration 16150 = Except.ok "00:00:16.150" ∧
    format_duration 255 = Except.ok "00:00:00.255" := by
  refine ⟨?_, ?_, ?_, rfl, rfl⟩
  · intro hneg
    simp [format_duration, hneg]
  · intro h0 hlt
    rw [format_duration_nonneg d h0]
    have hday : d.toNat / 86400000 = 0 := by omega
    simp [hday]
  · intro hge
    have h0 : 0 ≤ d := by omega
    rw [format_duration_nonneg d h0]
    have hday : d.toNat / 86400000 ≠ 0 := by omega
    simp [hday]

/-- Witness for C5 (amended) at the inputs named by the claim: a negative
duration raises and 255 ms renders as 00:00:00.255. -/
theorem c5_duration_formatting_witness :
    format_duration (-5) = Except.error "request duration cannot be negative" ∧
    format_duration 255 = Except.ok "00:00:00.255" :=
  ⟨(c5_duration_formatting (-5)).1 (by decide),
    (c5_duration_formatting 255).2.2.2.2⟩

/-- Counterexample to C5 as stated: at exactly 24 hours (86400000 ms), which
does not exceed 24 hours, the rendered duration nevertheless carries the
leading "<days>." prefix. -/
theorem c5_counterexample :
    format_duration 86400000 = Except.ok "1.00:00:00.000" ∧
    ¬ ((86400000 : Int) > 24 * 60 * 60 * 1000) :=
  ⟨rfl, by decide⟩

/-! ### Context tags (entities.py tag contributors, telemetry.py get_tags)

Python dictionaries are modelled by their lookup behaviour, as functions
from keys to optional values; `dict.update` is right-biased merge. -/

def Tags : Type := String → Option String

/-- `dict.update`: keys of the second dictionary override the first. -/
def dictUpdate (base extra : Tags) : Tags := fun k =>
  match extra k with
  | Option.some v => Option.some v
  | Option.none => base k

/-- Python truthiness of an optional string: None and the empty string are
falsy. -/
def pyTruthyStr : Option String → Bool
  | Option.none => false
  | Option.some s => s ≠ ""

/-- Rendering of an optional string inside an f-string: None prints as
"None". -/
def pyFStr : Option String → String
  | Option.none => "None"
  | Option.some s => s

structure Operation where
  id : String
  name : String

/-- `Operation.to_dict` from entities.py. -/
def Operation.to_dict (o : Operation) : Tags := fun k =>
  if k = "ai.operation.id" then Option.some o.id
  else if k = "ai.operation.name" then Option.some o.name
  else Option.none

structure Session where
  id : String

/-- `Session.to_dict` from entities.py. -/
def Session.to_dict (s : Session) : Tags := fun k =>
  if k = "ai.session.id" then Option.some s.id
  else Option.none

structure User where
  account_id : Option String
  id : Option String
  session_id : Option String

/-- `User.to_dict` from entities.py: each key is present only when the
corresponding field is truthy. -/
def User.to_dict (u : User) : Tags := fun k =>
  if k = "ai.user.accountId" then
    (if pyTruthyStr u.account_id then u.account_id else Option.none)
  else if k = "ai.session.id" then
    (if pyTruthyStr u.session_id then u.session_id else Option.none)
  else if k = "ai.user.id" then
    (if pyTruthyStr u.id then u.id else Option.none)
  else Option.none

structure LoggingDevice where
  id : String
  type_name : String
  os_version : String
  locale : String

/-- `LoggingDevice.to_dict` from entities.py. -/
def LoggingDevice.to_dict (d : LoggingDevice) : Tags := fun k =>
  if k = "ai.device.id" then Option.some d.id
  else if k = "ai.device.locale" then Option.some d.locale
  else if k = "ai.device.osVersion" then Option.some d.os_version
  else if k = "ai.device.type" then Option.some d.type_name
  else Option.none

structure Application where
  version : String

/-- `Application.to_dict` from entities.py. -/
def Application.to_dict (a : Application) : Tags := fun k =>
  if k = "ai.application.ver" then Option.some a.version
  else Option.none

structure Context where
  application : Option Application
  device : LoggingDevice

/-- `COMMON_TAGS` from telemetry.py: the fixed SDK identity tag. -/
def COMMON_TAGS : Tags := fun k =>
  if k = "ai.internal.sdkVersion" then Option.some "asynpy3:0.0.1"
  else Option.none

/-- `AsyncTelemetryClient.get_tags` from telemetry.py: start from the device
tags and update in turn with application, operation, user and session tags
when present, finishing with `COMMON_TAGS`. -/
def get_tags (ctx : Context) (operation : Option Operation)
    (session : Option Session) (user : Option User) : Tags :=
  let tags := ctx.device.to_dict
  let tags := match ctx.application with
    | Option.some app => dictUpdate tags app.to_dict
    | Option.none => tags
  let tags := match operation with
    | Option.some op => dictUpdate tags op.to_dict
    | Option.none => tags
  let tags := match user with
    | Option.some u => dictUpdate tags u.to_dict
    | Option.none => tags
  let tags := match session with
    | Option.some se => dictUpdate tags se.to_dict
    | Option.none => tags
  dictUpdate tags COMMON_TAGS

/-- Merge of the tag groups in the order the spec fixes: device,
application, operation, user, session, SDK identity, later groups
overriding earlier ones; absent optional groups contribute nothing.
Written from the words of the spec, to be compared with `get_tags`. -/
def spec_ordered_tags (ctx : Context) (operation : Option Operation)
    (session : Option Session) (user : Option User) : Tags :=
  let fromOpt : Option Tags → Tags := fun t k =>
    match t with
    | Option.some t => t k
    | Option.none => Option.none
  dictUpdate
    (dictUpdate
      (dictUpdate
        (dictUpdate
          (dictUpdate ctx.device.to_dict
            (fromOpt (ctx.application.map Application.to_dict)))
          (fromOpt (operation.map Operation.to_dict)))
        (fromOpt (user.map User.to_dict)))
      (fromOpt (session.map Session.to_dict)))
    COMMON_TAGS

/-- C6: for every combination of optional operation, session and user
arguments, `get_tags` agrees pointwise with the merge of the tag groups in
the order device, application, operation, user, session, SDK identity, with
later groups overriding earlier ones; and the SDK identity tag
ai.internal.sdkVersion is always present in the result with its fixed
value, never overridden by any caller-supplied tag group. -/
theorem c6_tag_composition (ctx : Context) (operation : Option Operation)
    (session : Option Session) (user : Option User) :
    (∀ k, get_tags ctx operation session user k
        = spec_ordered_tags ctx operation session user k) ∧
    get_tags ctx operation session user "ai.internal.sdkVersion"
      = Option.some "asynpy3:0.0.1" := by
  constructor
  · intro k
    cases happ : ctx.application <;> cases operation <;> cases session <;>
      cases user <;>
      simp [get_tags, spec_ordered_tags, dictUpdate, happ]
  · cases happ : ctx.application <;> cases operation <;> cases session <;>
      cases user <;>
      simp [get_tags, dictUpdate, COMMON_TAGS, happ]

/-! ### track_request (telemetry.py) and RequestData construction
(entities.py)

`RequestData.__init__` evaluates `int(response_code)`, which raises for the
default `None` value; Python `int()` is modelled on the three value shapes
the signature allows (None, int, str). -/

inductive PyVal where
  | none
  | int (n : Int)
  | str (s : String)
deriving DecidableEq, Repr

inductive PyErr where
  | typeErr
  | valueErr
deriving DecidableEq, Repr

/-- Digit-string value of a list of characters: defined when the list is a
non-empty run of decimal digits. -/
def digitsVal (cs : List Char) : Option Nat :=
  if cs ≠ [] ∧ cs.all Char.isDigit then
    Option.some (cs.foldl (fun a c => a * 10 + (c.toNat - 48)) 0)
  else Option.none

/-- Parsing of a decimal string with an optional leading minus sign, the
accepted inputs of Python `int(str)`. -/
def parseIntStr (s : String) : Option Int :=
  match s.toList with
  | '-' :: rest => (digitsVal rest).map (fun n => -(n : Int))
  | cs => (digitsVal cs).map (fun n => (n : Int))

/-- Python `int(x)` on the shapes `track_request` can pass as
response_code: `int(None)` raises TypeError, an int converts to itself, a
string must parse as a decimal integer or ValueError is raised. -/
def pyToInt : PyVal → Except PyErr Int
  | PyVal.none => Except.error PyErr.typeErr
  | PyVal.int n => Except.ok n
  | PyVal.str s =>
    match parseIntStr s with
    | Option.some n => Except.ok n
    | Option.none => Except.error PyErr.valueErr

/-- The envelope built by `track_request`: instrumentation key, composed
tags and the RequestData base data fields after the `int(response_code)`
conversion.  The capture timestamp and the properties and measurements
dictionaries are carried by the source envelope as well but are not
referenced by any claim, so they are not modelled. -/
structure EnvelopeModel where
  iKey : String
  tags : Tags
  reqId : String
  reqName : String
  httpMethod : Option String
  url : String
  responseCode : Int
  success : Bool
  durationMs : Int

/-- `AsyncTelemetryClient.track_request` from telemetry.py: choose the
request id (`_id or str(uuid.uuid4())`, with the fresh uuid supplied as the
`freshId` argument), synthesize an Operation from the request id and
"{method} {name}" when none is given, construct the RequestData payload —
whose `int(response_code)` conversion can raise, before any envelope
exists — wrap it in an envelope with the composed tags and push it to the
channel. -/
def track_request (ikey : String) (ctx : Context) (idArg : Option String)
    (name url : String) (success : Bool) (duration : Option Int)
    (responseCode : PyVal) (httpMethod : Option String)
    (operation : Option Operation) (session : Option Session)
    (user : Option User) (freshId : String)
    (c : ChannelState EnvelopeModel) :
    Except PyErr (ChannelState EnvelopeModel) :=
  let requestId := if pyTruthyStr idArg then pyFStr idArg else freshId
  let operation := match operation with
    | Option.some op => op
    | Option.none => Operation.mk requestId (pyFStr httpMethod ++ " " ++ name)
  match pyToInt responseCode with
  | Except.error e => Except.error e
  | Except.ok code =>
    let env : EnvelopeModel :=
      { iKey := ikey
        tags := get_tags ctx (Option.some operation) session user
        reqId := requestId
        reqName := name
        httpMethod := httpMethod
        url := url
        responseCode := code
        success := success
        durationMs := match duration with
          | Option.none => 0
          | Option.some d => if d = 0 then 0 else d }
    Except.ok (c.put (Option.some env))

/-- Whether an Except value is a success. -/
def exceptIsOk {ε α : Type} : Except ε α → Bool
  | Except.ok _ => true
  | Except.error _ => false

/-- C8: whenever the _id argument of `track_request` is falsy (None or the
empty string), the request id used is the freshly generated uuid; and
whenever no explicit Operation is given, `track_request` synthesizes an
Operation whose id is the request id and whose name is "{method} {name}",
and the envelope pushed to the channel carries those operation tags. -/
theorem c8_track_request_correlation
    (ikey : String) (ctx : Context) (idArg : Option String)
    (name url : String) (success : Bool) (duration : Option Int)
    (responseCode : PyVal) (httpMethod : Option String)
    (session : Option Session) (user : Option User) (freshId : String)
    (c : ChannelState EnvelopeModel)
    (hid : pyTruthyStr idArg = false)
    (code : Int) (hrc : pyToInt responseCode = Except.ok code) :
    ∃ env : EnvelopeModel,
      track_request ikey ctx idArg name url success duration responseCode
          httpMethod Option.none session user freshId c
        = Except.ok (c.put (Option.some env)) ∧
      env.reqId = freshId ∧
      env.tags "ai.operation.id" = Option.some freshId ∧
      env.tags "ai.operation.name"
        = Option.some (pyFStr httpMethod ++ " " ++ name) := by
  simp only [track_request, hid, Bool.false_eq_true, if_false, hrc]
  refine ⟨_, rfl, rfl, ?_, ?_⟩
  · cases session <;> cases user <;>
      simp [get_tags, dictUpdate, COMMON_TAGS, Session.to_dict, User.to_dict,
        Operation.to_dict]
  · cases session <;> cases user <;>
      simp [get_tags, dictUpdate, COMMON_TAGS, Session.to_dict, User.to_dict,
        Operation.to_dict]

/-- Witness for C8: a concrete `track_request` call with _id = None, no
Operation, method GET and name Example, response code 200. -/
theorem c8_track_request_correlation_witness :
    ∃ env : EnvelopeModel,
      track_request "ikey" ⟨Option.none, ⟨"host", "PC", "osv", "en"⟩⟩
          Option.none "Example" "http://x" true (Option.some 5)
          (PyVal.int 200) (Option.some "GET") Option.none Option.none
          Option.none "fresh-id" (initChannel EnvelopeModel 500)
        = Except.ok
            ((initChannel EnvelopeModel 500).put (Option.some env)) ∧
      env.reqId = "fresh-id" ∧
      env.tags "ai.operation.id" = Option.some "fresh-id" ∧
      env.tags "ai.operation.name"
        = Option.some (pyFStr (Option.some "GET") ++ " " ++ "Example") :=
  c8_track_request_correlation "ikey" ⟨Option.none, ⟨"host", "PC", "osv", "en"⟩⟩
    Option.none "Example" "http://x" true (Option.some 5) (PyVal.int 200)
    (Option.some "GET") Option.none Option.none "fresh-id"
    (initChannel EnvelopeModel 500) (by rfl) 200 (by rfl)

/-- C10: calling `track_request` with response_code left at its default None
makes the RequestData construction evaluate int(None) and fail with a
TypeError before any envelope is built or pushed; and in general the call
succeeds exactly when int(response_code) converts, so response_code must be
an int or a numeric string. -/
theorem c10_response_code_required (ikey : String) (ctx : Context)
    (idArg : Option String) (name url : String) (success : Bool)
    (duration : Option Int) (httpMethod : Option String)
    (operation : Option Operation) (session : Option Session)
    (user : Option User) (freshId : String) (c : ChannelState EnvelopeModel) :
    track_request ikey ctx idArg name url success duration PyVal.none
        httpMethod operation session user freshId c
      = Except.error PyErr.typeErr ∧
    ∀ rc : PyVal,
      exceptIsOk (track_request ikey ctx idArg name url success duration rc
        httpMethod operation session user freshId c)
      = exceptIsOk (pyToInt rc) := by
  constructor
  · simp [track_request, pyToInt]
  · intro rc
    cases hrc : pyToInt rc <;> simp [track_request, hrc, exceptIsOk]

/-! ### Exception capture (entities.py, ExceptionDetails.from_exception)

`traceback.extract_tb` yields one (filename, line number, function name,
source text) tuple per frame, ordered outermost call first and innermost
call — the raise site — last.  That order convention is assumed for the
`tb` list below. -/

structure TBFrame where
  file : String
  line : Nat
  func : String
  text : String
deriving DecidableEq, Repr

structure StackFrame where
  level : Nat
  method : String
  module : String
  file_name : String
  line : Nat
deriving DecidableEq, Repr

structure ExceptionDetails where
  id : Nat
  outer_id : Nat
  type_name : String
  message : String
  has_full_stack : Bool
  stack : List StackFrame
  texts : List String
deriving DecidableEq, Repr

/-- The frame loop of `from_exception`: while the skip counter is positive,
decrement it and drop the entry; afterwards collect, in traceback order, one
StackFrame (with a running level index and the literal module string " ")
and one source text per entry. -/
def fromExceptionLoop : Nat → Nat → List TBFrame → List StackFrame × List String
  | _, _, [] => ([], [])
  | Nat.succ k, index, _ :: rest => fromExceptionLoop k index rest
  | 0, index, f :: rest =>
    let st := fromExceptionLoop 0 (index + 1) rest
    (StackFrame.mk index f.func " " f.file f.line :: st.1, f.text :: st.2)

/-- `ExceptionDetails.from_exception` from entities.py: id 1, outer id 0,
the exception type name and message, and the frame and text lists built by
the loop and then reversed. -/
def ExceptionDetails.from_exception (type_name message : String)
    (tb : List TBFrame) (skip_frames : Nat) : ExceptionDetails :=
  let st := fromExceptionLoop skip_frames 0 tb
  { id := 1
    outer_id := 0
    type_name := type_name
    message := message
    has_full_stack := true
    stack := st.1.reverse
    texts := st.2.reverse }

theorem fromExceptionLoop_skip (k : Nat) (index : Nat) (tb : List TBFrame) :
    fromExceptionLoop k index tb = fromExceptionLoop 0 index (tb.drop k) := by
  induction k generalizing tb with
  | zero => simp
  | succ k ih =>
    cases tb with
    | nil => simp [fromExceptionLoop]
    | cons f rest => simp [fromExceptionLoop, ih]

theorem fromExceptionLoop_zero (tb : List TBFrame) (index : Nat) :
    fromExceptionLoop 0 index tb
      = ((tb.enumFrom index).map
          (fun p => StackFrame.mk p.1 p.2.func " " p.2.file p.2.line),
        tb.map TBFrame.text) := by
  induction tb generalizing index with
  | nil => simp [fromExceptionLoop]
  | cons f rest ih => simp [fromExceptionLoop, List.enumFrom, ih]

/-- C7 (amended): for every captured traceback and skip count k, the first k
entries of the traceback — its outermost end — are discarded, the resulting
stack frame list is the kept entries reversed, hence ordered innermost call
(most recent) first, the source text list is the kept texts reversed, and
the two lists stay parallel (same length, entry i of each coming from the
same traceback entry). -/
theorem c7_exception_details (type_name message : String)
    (tb : List TBFrame) (k : Nat) :
    (ExceptionDetails.from_exception type_name message tb k).stack
      = (((tb.drop k).enum).map
          (fun p => StackFrame.mk p.1 p.2.func " " p.2.file p.2.line)).reverse ∧
    (ExceptionDetails.from_exception type_name message tb k).texts
      = ((tb.drop k).map TBFrame.text).reverse ∧
    (ExceptionDetails.from_exception type_name message tb k).stack.length
      = (ExceptionDetails.from_exception type_name message tb k).texts.length := by
  have h := fromExceptionLoop_skip k 0 tb
  have h0 := fromExceptionLoop_zero (tb.drop k) 0
  refine ⟨?_, ?_, ?_⟩ <;>
    simp [ExceptionDetails.from_exception, h, h0, List.enum]

/-- Two-frame traceback used to exhibit the orientation of the captured
stack: the outermost caller frame first, the innermost raise site last, as
`traceback.extract_tb` orders them. -/
def tbOuter : TBFrame :=
  { file := "app.py", line := 10, func := "outer_call", text := "result = inner()" }

def tbInner : TBFrame :=
  { file := "lib.py", line := 99, func := "raise_site", text := "raise ValueError(msg)" }

/-- Counterexample to C7 as stated: with no skipping the captured stack
lists the innermost raise site first, not the outermost call; and with skip
count 1 the discarded frame is the outermost caller, not a frame at the
innermost end. -/
theorem c7_counterexample :
    (ExceptionDetails.from_exception "ValueError" "boom" [tbOuter, tbInner] 0).stack.map
        StackFrame.method = ["raise_site", "outer_call"] ∧
    (ExceptionDetails.from_exception "ValueError" "boom" [tbOuter, tbInner] 1).stack.map
        StackFrame.method = ["raise_site"] := by
  constructor <;> rfl

/-! ### Request instrumentation wrapper (aiohttp.py,
application_insights_middleware)

The handler invocation has three outcomes: a response, an HTTPException
carrying a status, or any other exception.  The telemetry calls the wrapper
performs (`track_request`, `track_exception`) are awaits that may themselves
raise — in this repository an `OperationFailed` transmission error surfacing
from a flush triggered inside `put`; such telemetry errors are ordinary
exceptions, never HTTPException, so inside the try block they are caught by
the `except Exception` arm.  The oracle `tel` gives the outcome of the k-th
telemetry call made during the invocation (`none` = the call returned,
`some t` = the call raised t). -/

inductive HandlerOutcome (ρ ε : Type) where
  | response (r : ρ) (status : Int)
  | httpError (status : Int) (e : ε)
  | otherError (e : ε)

inductive MWErr (ε τ : Type) where
  | http (status : Int) (e : ε)
  | other (e : ε)
  | telemetry (t : τ)

/-- What the unwrapped handler delivers to its caller: the response value,
or the raised error. -/
def handlerDelivered {ρ ε τ : Type} :
    HandlerOutcome ρ ε → Except (MWErr ε τ) ρ
  | HandlerOutcome.response r _ => Except.ok r
  | HandlerOutcome.httpError s e => Except.error (MWErr.http s e)
  | HandlerOutcome.otherError e => Except.error (MWErr.other e)

/-- `application_insights_middleware` from aiohttp.py.  When the request
filter matches, the wrapper is a pure pass-through.  Otherwise: on a
response, track_request (telemetry call 0) runs inside the try block and the
response is returned — if that call raises, the generic except arm runs
track_request and track_exception again (calls 1 and 2) and re-raises the
telemetry error; on an HTTPException from the handler, track_request (call
0) runs in the except arm and the identical error is re-raised; on any
other handler error, track_request (call 0) and track_exception (call 1)
run and the identical error is re-raised.  A telemetry call raising inside
an except arm propagates in place of everything else. -/
def middlewareRun {ρ ε τ : Type} (filterMatch : Bool)
    (outcome : HandlerOutcome ρ ε) (tel : Nat → Option τ) :
    Except (MWErr ε τ) ρ :=
  if filterMatch then handlerDelivered outcome
  else
    match outcome with
    | HandlerOutcome.response r _ =>
      match tel 0 with
      | Option.none => Except.ok r
      | Option.some t =>
        match tel 1 with
        | Option.some t2 => Except.error (MWErr.telemetry t2)
        | Option.none =>
          match tel 2 with
          | Option.some t3 => Except.error (MWErr.telemetry t3)
          | Option.none => Except.error (MWErr.telemetry t)
    | HandlerOutcome.httpError s e =>
      match tel 0 with
      | Option.some t => Except.error (MWErr.telemetry t)
      | Option.none => Except.error (MWErr.http s e)
    | HandlerOutcome.otherError e =>
      match tel 0 with
      | Option.some t => Except.error (MWErr.telemetry t)
      | Option.none =>
        match tel 1 with
        | Option.some t => Except.error (MWErr.telemetry t)
        | Option.none => Except.error (MWErr.other e)

/-- C2 (amended): for all three outcome branches, provided no telemetry call
raises, the value or error the wrapper delivers to its caller is identical
to what the unwrapped handler would have produced: the same response is
returned and a raised error is re-raised unchanged after the telemetry is
recorded.  (When a telemetry call does raise — e.g. a transmission failure
surfacing from a flush triggered inside put — that error propagates instead,
replacing the handler outcome; see the counterexample.) -/
theorem c2_wrapper_outcome {ρ ε τ : Type} (filterMatch : Bool)
    (outcome : HandlerOutcome ρ ε) (tel : Nat → Option τ)
    (h : ∀ k, tel k = Option.none) :
    middlewareRun filterMatch outcome tel = handlerDelivered outcome := by
  cases filterMatch with
  | true => simp [middlewareRun]
  | false =>
    cases outcome <;> simp [middlewareRun, handlerDelivered, h 0, h 1, h 2]

/-- Witness for C2 (amended): a response outcome with all telemetry calls
succeeding is delivered unchanged. -/
theorem c2_wrapper_outcome_witness :
    middlewareRun (ρ := Nat) (ε := Unit) (τ := Unit) false
        (HandlerOutcome.response 7 200) (fun _ => Option.none)
      = handlerDelivered (HandlerOutcome.response 7 200) :=
  c2_wrapper_outcome false (HandlerOutcome.response 7 200)
    (fun _ => Option.none) (fun _ => rfl)

/-- Counterexample to C2 as stated: when the handler raises a
non-HTTP error and the track_request call then raises a telemetry
(transmission) error, the wrapper delivers the telemetry error, replacing
the handler error the unwrapped handler would have delivered. -/
theorem c2_counterexample :
    middlewareRun (ρ := Nat) (ε := Unit) (τ := Unit) false
        (HandlerOutcome.otherError ()) (fun _ => Option.some ())
      = Except.error (MWErr.telemetry ()) ∧
    handlerDelivered (ρ := Nat) (ε := Unit) (τ := Unit)
        (HandlerOutcome.otherError ())
      = Except.error (MWErr.other ()) ∧
    (Except.error (MWErr.telemetry ()) : Except (MWErr Unit Unit) Nat)
      ≠ Except.error (MWErr.other ()) := by
  refine ⟨rfl, rfl, ?_⟩
  intro hcontra
  exact absurd (Except.error.inj hcontra) (by intro hmw; cases hmw)

/-! ### Client dispose (telemetry.py, AsyncTelemetryClient.dispose)

`dispose` runs `await self._channel.flush()` inside a try whose finally
runs `await self._channel.dispose()`.  The Python try/finally semantics are
modelled by a combinator over (event trace, result) pairs: the finally
block always runs after the body, and the body error — when the finally
block itself succeeds — is re-raised afterwards. -/

inductive ChanEv where
  | flushCalled
  | transportClosed
deriving DecidableEq, Repr

/-- Python try/finally over traced computations: the finally part always
executes after the body; an error of the finally part replaces the overall
result, otherwise the body result (value or re-raised error) stands. -/
def pyTryFinally {α ε : Type} (body : List ChanEv × Except ε α)
    (fin : List ChanEv × Except ε Unit) : List ChanEv × Except ε α :=
  (body.1 ++ fin.1,
    match fin.2 with
    | Except.error e => Except.error e
    | Except.ok _ => body.2)

/-- The channel flush step as `dispose` sees it: it performs one flush
(recorded as an event) and either returns or raises a transmission error,
supplied as `flushErr`. -/
def channelFlushRun {ε : Type} (flushErr : Option ε) :
    List ChanEv × Except ε Unit :=
  ([ChanEv.flushCalled],
    match flushErr with
    | Option.none => Except.ok ()
    | Option.some e => Except.error e)

/-- `AiohttpTelemetryChannel.dispose`: closes the transport resource and
returns. -/
def channelDisposeRun {ε : Type} : List ChanEv × Except ε Unit :=
  ([ChanEv.transportClosed], Except.ok ())

/-- `AsyncTelemetryClient.dispose` from telemetry.py: flush the channel in a
try block whose finally disposes the channel. -/
def clientDispose {ε : Type} (flushErr : Option ε) :
    List ChanEv × Except ε Unit :=
  pyTryFinally (channelFlushRun flushErr) channelDisposeRun

/-- C9: `dispose` first flushes the channel and then releases the channel
resources, in that order; when the flush raises, the release still
executes and the flush error is still propagated to the caller of
dispose. -/
theorem c9_dispose_order {ε : Type} (flushErr : Option ε) :
    (clientDispose flushErr).1 = [ChanEv.flushCalled, ChanEv.transportClosed] ∧
    (clientDispose flushErr).2
      = (match flushErr with
          | Option.none => Except.ok ()
          | Option.some e => Except.error e) := by
  cases flushErr <;>
    simp [clientDispose, pyTryFinally, channelFlushRun, channelDisposeRun]

end AsyncAppInsights
